import Mathlib

/-!
# Verification bot (`index.js`): a shallow embedding of its event handlers

The program is a set of event handlers over three in-memory tables
(`verifiedUsers`, `verificationSessions`, `pendingApprovals`), one stored
message identifier and two JSON documents.  Each handler is embedded as a
function from the state before the event to the state after it together with
the list of outbound calls it issues, in the order of the source text.

Modelling conventions.

* Identifiers (`msg.from.id`, `msg.chat.id`, `message_id`) are JavaScript
  safe integers and are embedded as `Int`; on them `String(id)`, also inside
  a template literal, is the decimal rendering `toString id`.  A property key
  `obj[id]` is that rendering, so a table keyed by identifiers is a function
  `Int → Option _`, where `none` stands for `undefined`.
* A value produced by `Number(...)` is embedded as `Option Int`: `some z` is
  the integer `z`, and `none` is any Number that is no integer (`NaN`, an
  infinity or a fraction).  Such a value is never strictly equal to an
  identifier and never the key of an entry of a table keyed by identifiers.
* The results of awaited gateway calls (did `deleteMessage` or
  `editMessageText` reject, which message did `sendMessage` return) and of the
  inference service are inputs of the handlers.
* The file system is taken to be reliable: a write stores the document.
-/

namespace TelegramBot

/-! ## Built-in string operations -/

/-- The characters removed by `String.prototype.trim`: the ECMAScript
`WhiteSpace` and `LineTerminator` code points. -/
def isTrimChar (c : Char) : Bool :=
  let n := c.toNat
  n == 0x09 || n == 0x0A || n == 0x0B || n == 0x0C || n == 0x0D || n == 0x20 ||
  n == 0xA0 || n == 0x1680 || (0x2000 ≤ n && n ≤ 0x200A) || n == 0x2028 ||
  n == 0x2029 || n == 0x202F || n == 0x205F || n == 0x3000 || n == 0xFEFF

/-- The method `s.trim()`. -/
def jsTrim (s : String) : String :=
  String.mk ((s.data.dropWhile isTrimChar).reverse.dropWhile isTrimChar).reverse

/-- The ECMAScript `LineTerminator` code points, which `.` in a regular
expression does not match. -/
def isLineTerminator (c : Char) : Bool :=
  let n := c.toNat
  n == 0x0A || n == 0x0D || n == 0x2028 || n == 0x2029

/-- The pieces of a character sequence between the occurrences of `sep`. -/
def splitChars (sep : Char) : List Char → List (List Char)
  | [] => [[]]
  | c :: cs =>
    if c = sep then [] :: splitChars sep cs
    else
      match splitChars sep cs with
      | [] => [[c]]
      | p :: ps => (c :: p) :: ps

/-- The call `s.split("_")`. -/
def jsSplit (s : String) : List String :=
  (splitChars '_' s.data).map String.mk

/-- One step of reading a run of decimal digits from the left. -/
def digitStep (acc : Option Nat) (c : Char) : Option Nat :=
  match acc with
  | none => none
  | some a => if c.isDigit then some (10 * a + (c.toNat - 48)) else none

/-- The value of a run of decimal digits, `none` when a character is no
digit. -/
def parseDigits (cs : List Char) : Option Nat :=
  cs.foldl digitStep (some 0)

/-- A plain decimal integer literal: an optional minus sign followed by one
or more decimal digits. -/
def parseDecimal (cs : List Char) : Option Int :=
  match cs with
  | [] => none
  | c :: ds =>
    if c = '-' then
      (if ds = [] then none else (parseDigits ds).map (fun n => - (n : Int)))
    else (parseDigits (c :: ds)).map (fun n => (n : Int))

/-- The characters that can occur in some string that `Number` converts to a
number: white space, digits, signs, the decimal point, the exponent and radix
markers, hexadecimal digits and the letters of `Infinity`. -/
def isNumericLiteralChar (c : Char) : Bool :=
  c.isDigit || isTrimChar c || "+-.eExXoObBInfinityabcdefABCDEF".data.contains c

/-- The conversion `Number(s)` of a string, up to the part that is left open.

* On a plain decimal integer literal whose value has magnitude at most `2^53`
  the result is that integer (the conversion is exact there).
* On a string holding a character that no numeric literal contains the
  result is `NaN`.
* On every other string (surrounding white space, fractions, exponents,
  other radixes, `Infinity`, longer digit runs) the result is `other s`:
  the remainder of the built-in conversion is a parameter, and every theorem
  holds for each choice of it. -/
def jsNumber (other : String → Option Int) (s : String) : Option Int :=
  match parseDecimal s.data with
  | some z => if z.natAbs ≤ 2 ^ 53 then some z else other s
  | none => if s.data.all isNumericLiteralChar then other s else none

/-- Strict equality `a === b` between a possibly `undefined` message field
(`none` is `undefined`) and a configured Number (`none` is `NaN`). -/
def strictEq : Option Int → Option Int → Bool
  | some a, some b => a == b
  | _, _ => false

/-- Does the regular expression `/\/sendverify/` (a literal pattern `pat`)
match somewhere in the text. -/
def regexSearch (pat : List Char) : List Char → Bool
  | [] => pat.isPrefixOf []
  | c :: cs => pat.isPrefixOf (c :: cs) || regexSearch pat cs

/-- The capture group of `/\/chat (.+)/` on a text: the leftmost occurrence
of `/chat ` that is followed by a character other than a line terminator, and
from there the longest run of such characters. -/
def regexChat : List Char → Option (List Char)
  | [] => none
  | c :: cs =>
    let here :=
      if "/chat ".data.isPrefixOf (c :: cs) then
        (c :: cs).drop 6 |>.takeWhile (fun x => !isLineTerminator x)
      else []
    if here ≠ [] then some here else regexChat cs

/-! ## Data model -/

/-- What the program reads from outside its source text. -/
structure Env where
  /-- The value `Number(process.env.ADMIN_ID)`. -/
  ADMIN_ID : Option Int
  /-- The value `Number(process.env.PUBLIC_CHANNEL_ID)`. -/
  PUBLIC_CHANNEL_ID : Option Int
  /-- The value `Number(process.env.RESTRICTED_TOPIC_ID)`. -/
  RESTRICTED_TOPIC_ID : Option Int
  /-- The field `botData.verification_reference`. -/
  verification_reference : String
  /-- The part of `Number(string)` left open by `jsNumber`. -/
  numberOther : String → Option Int

/-- An entry of `verificationSessions`. -/
structure Session where
  question : String
  deriving DecidableEq, Repr

/-- An entry of `pendingApprovals`. -/
structure Approval where
  question : String
  answer : String
  deriving DecidableEq, Repr

/-- An inline keyboard button. -/
structure Button where
  text : String
  callback_data : String
  deriving DecidableEq, Repr

/-- The options argument of `sendMessage`. -/
structure SendOptions where
  inline_keyboard : List (List Button)
  parse_mode : Option String
  deriving DecidableEq, Repr

/-- A call without options. -/
def noOptions : SendOptions := ⟨[], none⟩

/-- Outbound calls, file writes and console output, as issued. -/
inductive Effect where
  | deleteMessage (chatId : Int) (messageId : Int)
  | sendMessage (chatId : Option Int) (text : String) (options : SendOptions)
  | editMessageText (text : String) (chat_id : Option Int) (message_id : Int)
      (inline_keyboard : List (List Button))
  | answerCallbackQuery (id : String)
  | chatCompletion (model : String) (messages : List (String × String))
  | writeFile (path : String)
  | log (text : String)
  deriving DecidableEq, Repr

/-- The mutable state of the process and the two documents it writes. -/
structure State where
  /-- The object `verifiedUsers`; an entry holds the truthiness of its value. -/
  verifiedUsers : Int → Option Bool
  /-- The object `verificationSessions`. -/
  verificationSessions : Int → Option Session
  /-- The object `pendingApprovals`. -/
  pendingApprovals : Int → Option Approval
  /-- The field `lastVerificationMessage.messageId`; `none` is `null`. -/
  lastVerificationMessage : Option Int
  /-- The document `verified_users.json`; `none` when there is no such file. -/
  verifiedUsersFile : Option (Int → Option Bool)
  /-- The field `messageId` of the document `last_verification_message.json`;
  the outer `none` when there is no such file. -/
  lastVerificationMessageFile : Option (Option Int)

/-- An inbound message. -/
structure Message where
  message_id : Int
  /-- The field `msg.from.id`. -/
  from_id : Int
  /-- The field `msg.from.first_name`. -/
  first_name : String
  /-- The field `msg.chat.id`. -/
  chat_id : Int
  text : Option String
  message_thread_id : Option Int
  deriving DecidableEq, Repr

/-- An inbound callback query. -/
structure CallbackQuery where
  id : String
  /-- The field `query.from.id`. -/
  from_id : Int
  data : String
  deriving DecidableEq, Repr

/-- What the inference service returns to `generateVerificationResponse`. -/
inductive Completion where
  /-- The request rejects, or the first choice has a message without
  content (so that `.trim()` throws inside the `try`). -/
  | failed
  /-- There is no first choice, or it has no message. -/
  | noMessage
  /-- The content of the first choice's message. -/
  | content (text : String)
  deriving DecidableEq, Repr

/-- The results of the awaited calls made while one message is handled. -/
structure Outcomes where
  /-- Did `bot.deleteMessage` resolve. -/
  deleteMessage : Bool
  /-- Did `bot.editMessageText` resolve. -/
  editMessageText : Bool
  /-- The `message_id` of the message returned by the awaited
  `bot.sendMessage` to the public channel; `none` when it rejects. -/
  sendMessage : Option Int
  completion : Completion
  deriving DecidableEq, Repr

/-- An inbound update. -/
inductive Update where
  | message (msg : Message) (out : Outcomes)
  | callback_query (query : CallbackQuery)
  deriving DecidableEq, Repr

/-! ## Persistent store -/

/-- The constant `messageDataFile`. -/
def messageDataFile : String := "last_verification_message.json"

/-- The function `saveVerifiedUsers(users)`. -/
def saveVerifiedUsers (st : State) (users : Int → Option Bool) : State × List Effect :=
  ({ st with verifiedUsersFile := some users }, [Effect.writeFile "verified_users.json"])

/-- The function `saveLastVerificationMessage(messageId)`. -/
def saveLastVerificationMessage (st : State) (messageId : Int) : State × List Effect :=
  ({ st with lastVerificationMessageFile := some (some messageId) },
   [Effect.writeFile messageDataFile])

/-! ## Message handler -/

/-- The guard `topicId === RESTRICTED_TOPIC_ID && userId !== ADMIN_ID`. -/
def isRestricted (env : Env) (msg : Message) : Bool :=
  strictEq msg.message_thread_id env.RESTRICTED_TOPIC_ID &&
    decide (env.ADMIN_ID ≠ some msg.from_id)

/-- The text of the notification sent to the operator. -/
def approvalRequestText (first_name question userInput : String) : String :=
  "🔔 **طلب تحقق جديد!**\n👤 المستخدم: " ++ first_name ++
  "\n\n📝 **سؤال التحقق:**\n" ++ question ++
  "\n\n✍️ **إجابة المستخدم:**\n" ++ userInput

/-- The keyboard attached to the notification sent to the operator. -/
def approvalKeyboard (userId : Int) : SendOptions :=
  ⟨[[⟨"✅ قبول", "approve_" ++ toString userId⟩],
    [⟨"❌ رفض", "reject_" ++ toString userId⟩]], none⟩

/-- The confirmation sent to the participant whose answer was forwarded. -/
def answerForwardedText : String := "⏳ تم إرسال إجابتك إلى المسؤول. انتظر الموافقة..."

/-- The second block of the message handler (`Handle Verification Answer`). -/
def handleVerificationAnswer (env : Env) (st : State) (msg : Message) :
    State × List Effect :=
  let userId := msg.from_id
  match st.verificationSessions userId, msg.text.map jsTrim with
  | some session, some userInput =>
    if userInput = "" then (st, [])
    else
      ({ st with
          pendingApprovals :=
            Function.update st.pendingApprovals userId
              (some ⟨session.question, userInput⟩)
          verificationSessions := Function.update st.verificationSessions userId none },
       [Effect.sendMessage env.ADMIN_ID
          (approvalRequestText msg.first_name session.question userInput)
          (approvalKeyboard userId),
        Effect.sendMessage (some userId) answerForwardedText noOptions])
  | _, _ => (st, [])

/-- The handler `bot.on("message", ...)`; `deleteOk` tells whether the
awaited `bot.deleteMessage` resolves. -/
def onMessage (env : Env) (st : State) (msg : Message) (deleteOk : Bool) :
    State × List Effect :=
  if isRestricted env msg then
    if deleteOk then (st, [Effect.deleteMessage msg.chat_id msg.message_id])
    else
      let r := handleVerificationAnswer env st msg
      (r.1, [Effect.deleteMessage msg.chat_id msg.message_id,
             Effect.log "❌ Error deleting message:"] ++ r.2)
  else handleVerificationAnswer env st msg

/-! ## Prompt publisher -/

/-- The constant `verificationText`. -/
def verificationText : String :=
  "📢 هل ترغب في التقدم للتحقق؟ اضغط على الزر أدناه لبدء العملية."

/-- The constant `verificationKeyboard`. -/
def verificationKeyboard : SendOptions :=
  ⟨[[⟨"📝 التقدم للتحقق", "start_verification"⟩]], none⟩

/-- The truthiness test `if (lastVerificationMessage.messageId)`: the stored
identifier when it is neither `null` nor `0`. -/
def truthyId : Option Int → Option Int
  | some n => if n = 0 then none else some n
  | none => none

/-- The tail of the `/sendverify` handler: post a new prompt and record it.
`pre` holds the calls issued before. -/
def postPrompt (env : Env) (st : State) (userId : Int) (sendResult : Option Int)
    (pre : List Effect) : State × List Effect :=
  let post := Effect.sendMessage env.PUBLIC_CHANNEL_ID verificationText verificationKeyboard
  match sendResult with
  | none => (st, pre ++ [post])
  | some message_id =>
    let saved := saveLastVerificationMessage
      { st with lastVerificationMessage := some message_id } message_id
    (saved.1, pre ++ [post] ++ saved.2 ++
      [Effect.sendMessage (some userId) "✅ تم إرسال رسالة التحقق بنجاح!" noOptions])

/-- The handler `bot.onText(/\/sendverify/, ...)`; `editOk` tells whether the
awaited `bot.editMessageText` resolves and `sendResult` is the identifier of
the message the awaited `bot.sendMessage` returns. -/
def onSendVerify (env : Env) (st : State) (msg : Message) (editOk : Bool)
    (sendResult : Option Int) : State × List Effect :=
  let userId := msg.from_id
  if env.ADMIN_ID ≠ some userId then
    (st, [Effect.sendMessage (some userId) "❌ هذا الأمر مخصص فقط للمسؤول." noOptions])
  else
    match truthyId st.lastVerificationMessage with
    | some messageId =>
      let edit := Effect.editMessageText verificationText env.PUBLIC_CHANNEL_ID messageId
        verificationKeyboard.inline_keyboard
      if editOk then
        (st, [edit,
              Effect.sendMessage (some userId) "✅ تم تحديث رسالة التحقق بنجاح!" noOptions])
      else
        postPrompt env st userId sendResult
          [edit, Effect.log "⚠️ Previous verification message not found. Sending a new one..."]
    | none => postPrompt env st userId sendResult []

/-! ## Callback handlers -/

/-- The constant `verificationQuestion`. -/
def verificationQuestion : String := "ما هو الهدف من التوثيق؟"

/-- The notice sent to a participant who is verified already. -/
def alreadyVerifiedText : String := "✅ أنت بالفعل مستخدم موثق."

/-- The message that carries the question. -/
def questionText : String :=
  "📝 **سؤال التحقق:**\n" ++ verificationQuestion ++ "\n\n💡 **أرسل إجابتك الآن.**"

/-- The first handler `bot.on("callback_query", ...)`. -/
def onStartVerification (st : State) (query : CallbackQuery) : State × List Effect :=
  let userId := query.from_id
  if query.data = "start_verification" then
    if st.verifiedUsers userId = some true then
      (st, [Effect.sendMessage (some userId) alreadyVerifiedText noOptions])
    else
      ({ st with
          verificationSessions :=
            Function.update st.verificationSessions userId (some ⟨verificationQuestion⟩) },
       [Effect.sendMessage (some userId) questionText ⟨[], some "Markdown"⟩,
        Effect.answerCallbackQuery query.id])
  else (st, [Effect.answerCallbackQuery query.id])

/-- The first component of `let [action, userId] = query.data.split("_")`. -/
def callbackAction (data : String) : String :=
  match jsSplit data with
  | action :: _ => action
  | [] => ""

/-- The value `Number(userId)` for the second component of
`let [action, userId] = query.data.split("_")`; the component is `undefined`
when there is no underscore, and `Number(undefined)` is `NaN`. -/
def callbackUserId (env : Env) (data : String) : Option Int :=
  match jsSplit data with
  | _ :: userId :: _ => jsNumber env.numberOther userId
  | _ => none

/-- The notice sent on approval. -/
def approvedText : String := "🎉 تهانينا! تم توثيق حسابك بنجاح."

/-- The notice sent on rejection. -/
def rejectedText : String := "❌ تم رفض طلب التوثيق الخاص بك."

/-- The second handler `bot.on("callback_query", ...)`.  When `Number(userId)`
is no integer it is the key of no pending approval, and the guard
`if (!pendingApprovals[userId]) return` fires. -/
def onApproval (env : Env) (st : State) (query : CallbackQuery) : State × List Effect :=
  let action := callbackAction query.data
  match callbackUserId env query.data with
  | none => (st, [])
  | some userId =>
    match st.pendingApprovals userId with
    | none => (st, [])
    | some _ =>
      let r : State × List Effect :=
        if action = "approve" then
          let users := Function.update st.verifiedUsers userId (some true)
          let saved := saveVerifiedUsers { st with verifiedUsers := users } users
          (saved.1, saved.2 ++ [Effect.sendMessage (some userId) approvedText noOptions])
        else if action = "reject" then
          (st, [Effect.sendMessage (some userId) rejectedText noOptions])
        else (st, [])
      ({ r.1 with pendingApprovals := Function.update r.1.pendingApprovals userId none },
       r.2 ++ [Effect.answerCallbackQuery query.id])

/-- Both `callback_query` listeners, run in the order of registration. -/
def onCallbackQuery (env : Env) (st : State) (query : CallbackQuery) :
    State × List Effect :=
  let r1 := onStartVerification st query
  let r2 := onApproval env r1.1 query
  (r2.1, r1.2 ++ r2.2)

/-! ## Question answering -/

/-- The system instruction of the inference request. -/
def systemPrompt : String :=
  "أنت مساعد ذكاء اصطناعي مخصص للإجابة على أسئلة التوثيق.\n                              لا تقم فقط بنسخ المعلومات المرجعية، بل استوعبها وأعد صياغتها بأساليب مختلفة، \n                              مع الحفاظ على الجوهر والمعنى الأساسي. اجعل كل إجابة تبدو فريدة ومفهومة."

/-- The request and the reply of `generateVerificationResponse(userInput)`. -/
def generateVerificationResponse (env : Env) (userInput : String) (result : Completion) :
    String × List Effect :=
  let request := Effect.chatCompletion "meta-llama/Llama-3.3-70B-Instruct-Turbo"
    [("system", systemPrompt),
     ("user", "📌 **مرجع التوثيق:**\n" ++ env.verification_reference ++
        "\n\n\n                              📝 فهم هذا المرجع جيدًا، ثم أعد صياغته بطريقة جديدة للإجابة على السؤال التالي:"),
     ("user", "❓ السؤال: " ++ userInput)]
  match result with
  | Completion.failed =>
    ("⚠️ الخدمة غير متاحة حاليًا، حاول لاحقًا.", [request, Effect.log "❌ Together API Error:"])
  | Completion.noMessage => ("❌ لم أتمكن من توليد استجابة.", [request])
  | Completion.content text =>
    (if jsTrim text = "" then "❌ لم أتمكن من توليد استجابة." else jsTrim text, [request])

/-- The handler `bot.onText(/\/chat (.+)/, ...)` on the captured text. -/
def onChat (env : Env) (st : State) (msg : Message) (userMessage : String)
    (result : Completion) : State × List Effect :=
  let userId := msg.from_id
  let response := generateVerificationResponse env userMessage result
  (st, [Effect.sendMessage (some userId) "🤖 Thinking..." noOptions] ++ response.2 ++
    [Effect.sendMessage (some userId) response.1 noOptions])

/-! ## Dispatch -/

/-- The text commands of a message: the `onText` listeners whose pattern
matches, started in the order of registration (`/sendverify`, then `/chat`).
The result holds the calls of the `/sendverify` listener and the calls of the
`/chat` listener, each list in the order the listener issues them. -/
def onText (env : Env) (st : State) (msg : Message) (out : Outcomes) :
    State × List (List Effect) :=
  match msg.text with
  | none => (st, [[], []])
  | some text =>
    let r1 : State × List Effect :=
      if regexSearch "/sendverify".data text.data then
        onSendVerify env st msg out.editMessageText out.sendMessage
      else (st, [])
    let r2 : State × List Effect :=
      match regexChat text.data with
      | some m => onChat env r1.1 msg (String.mk m) out.completion
      | none => (r1.1, [])
    (r2.1, [r1.2, r2.2])

/-- One inbound update handled to completion.  The client library emits
`message` to its listener first and then tries the text patterns, each
matching one in turn; a callback query goes to the two `callback_query`
listeners, which run one after the other without suspending.

The listeners of a message are asynchronous: each runs up to its first
`await` and resumes when the awaited call settles, so the calls of different
listeners interleave in an order fixed by the gateway (a listener suspended
at `await bot.deleteMessage` resumes after the text listeners have started).
The calls are therefore kept per listener, each list in the order that
listener issues them: for a message the lists of the `message`, `/sendverify`
and `/chat` listeners, for a callback query the one list of both listeners.
The listeners of one message write disjoint parts of the state, so the state
after the update does not depend on the interleaving. -/
def processUpdate (env : Env) (st : State) : Update → State × List (List Effect)
  | Update.message msg out =>
    let r1 := onMessage env st msg out.deleteMessage
    let r2 := onText env r1.1 msg out
    (r2.1, r1.2 :: r2.2)
  | Update.callback_query query =>
    let r := onCallbackQuery env st query
    (r.1, [r.2])

/-! ## Observations and sample data -/

/-- Does the text of a message match one of the two command patterns,
`/\/sendverify/` or `/\/chat (.+)/`. -/
def matchesCommand (msg : Message) : Bool :=
  match msg.text with
  | none => false
  | some text => regexSearch "/sendverify".data text.data || (regexChat text.data).isSome

/-- The `deleteMessage` calls among a list of effects, as pairs of chat and
message identifier. -/
def deleteCalls : List Effect → List (Int × Int)
  | [] => []
  | Effect.deleteMessage c m :: es => (c, m) :: deleteCalls es
  | _ :: es => deleteCalls es

/-- A configuration: operator 1, public channel -100, restricted topic 9,
and an open part of `Number` that yields `NaN` throughout. -/
def sampleEnv : Env := ⟨some 1, some (-100), some 9, "", fun _ => none⟩

/-- The state of a fresh process with no persisted document. -/
def emptyState : State := ⟨fun _ => none, fun _ => none, fun _ => none, none, none, none⟩

/-- Participant 7 has an open session. -/
def openState : State :=
  { emptyState with
      verificationSessions := fun k => if k = 7 then some ⟨verificationQuestion⟩ else none }

/-- Participant 7 posts `hello` in the restricted topic 9. -/
def restrictedMessage : Message := ⟨10, 7, "Bob", -200, some "hello", some 9⟩

/-- Participant 7 sends a private message whose text is two spaces. -/
def blankMessage : Message := ⟨11, 7, "Bob", 7, some "  ", none⟩

/-- Participant 7 is verified. -/
def verifiedState : State :=
  { emptyState with verifiedUsers := fun k => if k = 7 then some true else none }

/-- Participant 5 has a pending approval. -/
def pendingState : State :=
  { emptyState with
      pendingApprovals := fun k => if k = 5 then some ⟨verificationQuestion, "hello"⟩ else none }

/-- The prompt with identifier 40 is the stored one. -/
def storedState : State := { emptyState with lastVerificationMessage := some 40 }

/-- Participant 7 sends `/chat hi` in a private chat. -/
def chatMessage : Message := ⟨13, 7, "Bob", 7, some "/chat hi", none⟩

/-- Every awaited call resolves, the prompt post returns message 41 and the
inference service answers `ok`. -/
def sampleOutcomes : Outcomes := ⟨true, true, some 41, Completion.content "ok"⟩

/-- The operator sends `/sendverify` in a private chat. -/
def operatorCommand : Message := ⟨20, 1, "Op", 1, some "/sendverify", none⟩

/-! ## Decimal rendering and its conversion back -/

/-- The character of a decimal digit is a digit with that value, and is neither
the underscore nor the minus sign. -/
theorem digitChar_spec (d : Nat) (h : d < 10) :
    (Nat.digitChar d).isDigit = true ∧ (Nat.digitChar d).toNat - 48 = d ∧
      Nat.digitChar d ≠ '_' ∧ Nat.digitChar d ≠ '-' := by
  interval_cases d <;> decide

/-- Reading digits never recovers from a failure. -/
theorem digitStep_foldl_none (ds : List Char) : ds.foldl digitStep none = none := by
  induction ds with
  | nil => rfl
  | cons c cs ih => simpa [digitStep] using ih

/-- With enough fuel, `Nat.toDigitsCore` puts in front of the accumulator a
non-empty run of digits that reads back, after a value `a`, as `a` shifted
followed by `n`. -/
theorem toDigitsCore_spec (fuel : Nat) :
    ∀ (n : Nat) (acc : List Char), n < fuel →
      ∃ ds, Nat.toDigitsCore 10 fuel n acc = ds ++ acc ∧ ds ≠ [] ∧
        (∀ c ∈ ds, c.isDigit = true ∧ c ≠ '_' ∧ c ≠ '-') ∧
        ∀ a, ds.foldl digitStep (some a) = some (a * 10 ^ ds.length + n) := by
  induction fuel with
  | zero => intro n acc h; omega
  | succ fuel ih =>
    intro n acc h
    have hd := digitChar_spec (n % 10) (Nat.mod_lt _ (by decide))
    by_cases h0 : n / 10 = 0
    · refine ⟨[Nat.digitChar (n % 10)], ?_, by simp, ?_, ?_⟩
      · simp [Nat.toDigitsCore, h0]
      · intro c hc
        simp only [List.mem_singleton] at hc
        subst hc
        exact ⟨hd.1, hd.2.2.1, hd.2.2.2⟩
      · intro a
        have hn : n % 10 = n := Nat.mod_eq_of_lt (by omega)
        simp only [List.foldl_cons, List.foldl_nil, digitStep, hd.1, hd.2.1, if_true,
          List.length_singleton, pow_one]
        congr 1
        omega
    · have hlt : n / 10 < fuel := by omega
      obtain ⟨ds, heq, hne, hall, hval⟩ := ih (n / 10) (Nat.digitChar (n % 10) :: acc) hlt
      refine ⟨ds ++ [Nat.digitChar (n % 10)], ?_, by simp, ?_, ?_⟩
      · simp [Nat.toDigitsCore, h0, heq]
      · intro c hc
        rcases List.mem_append.1 hc with hc | hc
        · exact hall c hc
        · simp only [List.mem_singleton] at hc
          subst hc
          exact ⟨hd.1, hd.2.2.1, hd.2.2.2⟩
      · intro a
        rw [List.foldl_append, hval a]
        simp [digitStep, hd.1, hd.2.1, pow_succ]
        have := Nat.div_add_mod n 10
        ring_nf
        omega

/-- The decimal digits of a natural number are digits and read back as that
number. -/
theorem toDigits_spec (n : Nat) :
    Nat.toDigits 10 n ≠ [] ∧ (∀ c ∈ Nat.toDigits 10 n, c.isDigit = true ∧ c ≠ '_' ∧ c ≠ '-') ∧
      parseDigits (Nat.toDigits 10 n) = some n := by
  obtain ⟨ds, heq, hne, hall, hval⟩ := toDigitsCore_spec (n + 1) n [] (Nat.lt_succ_self n)
  simp only [List.append_nil] at heq
  unfold Nat.toDigits parseDigits
  rw [heq]
  exact ⟨hne, hall, by simpa using hval 0⟩


/-- The decimal rendering of an integer holds no underscore and is a plain
decimal literal of that integer. -/
theorem toString_int_spec (z : Int) :
    '_' ∉ (toString z).data ∧ parseDecimal (toString z).data = some z := by
  cases z with
  | ofNat m =>
    obtain ⟨hne, hall, hval⟩ := toDigits_spec m
    have hdata : (toString (Int.ofNat m)).data = Nat.toDigits 10 m := rfl
    rw [hdata]
    refine ⟨fun hmem => (hall _ hmem).2.1 rfl, ?_⟩
    cases hds : Nat.toDigits 10 m with
    | nil => exact absurd hds hne
    | cons c ds =>
      have hc : c ≠ '-' := (hall c (by simp [hds])).2.2
      rw [hds] at hval
      simp [parseDecimal, hc, hval]
  | negSucc m =>
    obtain ⟨hne, hall, hval⟩ := toDigits_spec (m + 1)
    have hdata : (toString (Int.negSucc m)).data = '-' :: Nat.toDigits 10 (m + 1) := rfl
    rw [hdata]
    refine ⟨?_, ?_⟩
    · intro hmem
      rcases List.mem_cons.1 hmem with h | h
      · exact absurd h (by decide)
      · exact (hall _ h).2.1 rfl
    · simp [parseDecimal, hne, hval, Int.negSucc_eq]

/-- A sequence without the separator is a single piece. -/
theorem splitChars_of_not_mem (sep : Char) (cs : List Char) (h : sep ∉ cs) :
    splitChars sep cs = [cs] := by
  induction cs with
  | nil => rfl
  | cons c cs ih =>
    have hc : c ≠ sep := fun e => h (by simp [e])
    have hcs : sep ∉ cs := fun e => h (List.mem_cons_of_mem _ e)
    simp [splitChars, hc, ih hcs]

/-- Splitting stops the first piece at the first separator. -/
theorem splitChars_append (sep : Char) (pre cs : List Char) (h : sep ∉ pre) :
    splitChars sep (pre ++ sep :: cs) = pre :: splitChars sep cs := by
  induction pre with
  | nil => simp [splitChars]
  | cons c pre ih =>
    have hc : c ≠ sep := fun e => h (by simp [e])
    have hpre : sep ∉ pre := fun e => h (List.mem_cons_of_mem _ e)
    simp [splitChars, hc, ih hpre]

/-- On the rendering of a safe integer, `Number` returns that integer. -/
theorem jsNumber_toString (other : String → Option Int) (z : Int) (h : z.natAbs ≤ 2 ^ 53) :
    jsNumber other (toString z) = some z := by
  simp only [jsNumber, (toString_int_spec z).2]
  exact if_pos h

/-- The payload `action_id` splits into the action and the rendered
identifier. -/
theorem jsSplit_action_id (action : String) (z : Int) (h : '_' ∉ action.data) :
    jsSplit (action ++ "_" ++ toString z) = [action, toString z] := by
  have hd : (action ++ "_" ++ toString z).data = action.data ++ '_' :: (toString z).data := by
    simp [String.data_append]
  simp [jsSplit, hd, splitChars_append _ _ _ h,
    splitChars_of_not_mem _ _ (toString_int_spec z).1]

/-! ## The handlers -/

/-- The restriction guard, spelled out. -/
theorem isRestricted_iff (env : Env) (msg : Message) :
    isRestricted env msg = true ↔
      ((∃ t, msg.message_thread_id = some t ∧ env.RESTRICTED_TOPIC_ID = some t) ∧
        env.ADMIN_ID ≠ some msg.from_id) := by
  unfold isRestricted
  cases h1 : msg.message_thread_id <;> cases h2 : env.RESTRICTED_TOPIC_ID <;>
    simp [strictEq]
  intro _
  exact eq_comm

/-- The answer block deletes no message. -/
theorem handleVerificationAnswer_deleteCalls (env : Env) (st : State) (msg : Message) :
    deleteCalls (handleVerificationAnswer env st msg).2 = [] := by
  cases hs : st.verificationSessions msg.from_id <;> cases ht : msg.text <;>
    simp only [handleVerificationAnswer, hs, ht, Option.map, deleteCalls]
  split <;> rfl

/-- C1: the message handler issues a `deleteMessage` call, exactly one and on
the message's own chat and message identifier, if and only if the message's
thread identifier equals `RESTRICTED_TOPIC_ID` and its author is not
`ADMIN_ID`; otherwise it issues none, so a message authored by the operator
is never deleted. -/
theorem C1_delete_iff_restricted (env : Env) (st : State) (msg : Message) (deleteOk : Bool) :
    (deleteCalls (onMessage env st msg deleteOk).2 = [(msg.chat_id, msg.message_id)] ∨
      deleteCalls (onMessage env st msg deleteOk).2 = []) ∧
    (deleteCalls (onMessage env st msg deleteOk).2 = [(msg.chat_id, msg.message_id)] ↔
      ((∃ t, msg.message_thread_id = some t ∧ env.RESTRICTED_TOPIC_ID = some t) ∧
        env.ADMIN_ID ≠ some msg.from_id)) ∧
    (env.ADMIN_ID = some msg.from_id →
      deleteCalls (onMessage env st msg deleteOk).2 = []) := by
  have hv := handleVerificationAnswer_deleteCalls env st msg
  have hiff := isRestricted_iff env msg
  by_cases hr : isRestricted env msg = true
  · have hcalls : deleteCalls (onMessage env st msg deleteOk).2 =
        [(msg.chat_id, msg.message_id)] := by
      unfold onMessage
      cases deleteOk <;> simp [hr, deleteCalls, hv]
    refine ⟨Or.inl hcalls, ⟨fun _ => hiff.1 hr, fun _ => hcalls⟩, ?_⟩
    intro hadmin
    exact absurd hadmin (hiff.1 hr).2
  · have hcalls : deleteCalls (onMessage env st msg deleteOk).2 = [] := by
      unfold onMessage
      simp [hr, hv]
    refine ⟨Or.inr hcalls, ⟨fun h => ?_, fun h => absurd (hiff.2 h) hr⟩, fun _ => hcalls⟩
    rw [hcalls] at h
    exact absurd h (by simp)

/-- An instance of the C1 theorem on sample data. -/
theorem C1_delete_iff_restricted_witness :
    sampleEnv.ADMIN_ID = some 1 ∧
      deleteCalls (onMessage sampleEnv emptyState ⟨10, 1, "Op", -200, some "hi", some 9⟩ true).2
        = [] :=
  ⟨rfl, (C1_delete_iff_restricted sampleEnv emptyState
    ⟨10, 1, "Op", -200, some "hi", some 9⟩ true).2.2 rfl⟩

/-- The answer block on an open session and a non-empty trimmed text. -/
theorem handleVerificationAnswer_capture (env : Env) (st : State) (msg : Message)
    (s : Session) (text : String) (hs : st.verificationSessions msg.from_id = some s)
    (ht : msg.text = some text) (hne : jsTrim text ≠ "") :
    handleVerificationAnswer env st msg =
      ({ st with
          pendingApprovals :=
            Function.update st.pendingApprovals msg.from_id (some ⟨s.question, jsTrim text⟩)
          verificationSessions := Function.update st.verificationSessions msg.from_id none },
       [Effect.sendMessage env.ADMIN_ID
          (approvalRequestText msg.first_name s.question (jsTrim text))
          (approvalKeyboard msg.from_id),
        Effect.sendMessage (some msg.from_id) answerForwardedText noOptions]) := by
  simp only [handleVerificationAnswer, hs, ht, Option.map, if_neg hne]

/-- The answer block without a session does nothing. -/
theorem handleVerificationAnswer_noSession (env : Env) (st : State) (msg : Message)
    (hs : st.verificationSessions msg.from_id = none) :
    handleVerificationAnswer env st msg = (st, []) := by
  simp only [handleVerificationAnswer, hs]

/-- C2 (the code at the failing input): a participant with an open session
posts `hello` in the restricted topic and `deleteMessage` rejects.  The
handler logs the error and goes on to the answer block: the answer becomes a
pending approval, the session is removed, and the operator and the
participant are both sent a message. -/
theorem C2_failed_deletion_is_processed :
    isRestricted sampleEnv restrictedMessage = true ∧
    (onMessage sampleEnv openState restrictedMessage false).1.pendingApprovals 7
      = some ⟨verificationQuestion, "hello"⟩ ∧
    (onMessage sampleEnv openState restrictedMessage false).1.verificationSessions 7 = none ∧
    (onMessage sampleEnv openState restrictedMessage false).2 =
      [Effect.deleteMessage (-200) 10,
       Effect.log "❌ Error deleting message:",
       Effect.sendMessage (some 1)
         (approvalRequestText "Bob" verificationQuestion "hello") (approvalKeyboard 7),
       Effect.sendMessage (some 7) answerForwardedText noOptions] := by
  refine ⟨by decide, by decide, by decide, by decide⟩

/-- C3 (the code at the failing input): a verified participant presses the
apply button.  The first listener sends the already-verified notice and
returns before its acknowledgement, the second listener finds no pending
approval and returns: no `answerCallbackQuery` call is issued. -/
theorem C3_verified_apply_not_acknowledged :
    (onCallbackQuery sampleEnv verifiedState ⟨"q1", 7, "start_verification"⟩).2 =
      [Effect.sendMessage (some 7) alreadyVerifiedText noOptions] := by
  decide

/-- Posting the prompt touches neither the sessions nor the pending
approvals. -/
theorem postPrompt_workflow (env : Env) (st : State) (userId : Int)
    (sendResult : Option Int) (pre : List Effect) :
    (postPrompt env st userId sendResult pre).1.verificationSessions
        = st.verificationSessions ∧
      (postPrompt env st userId sendResult pre).1.pendingApprovals = st.pendingApprovals := by
  cases sendResult <;> exact ⟨rfl, rfl⟩

/-- The `/sendverify` listener touches neither the sessions nor the pending
approvals. -/
theorem onSendVerify_workflow (env : Env) (st : State) (msg : Message) (editOk : Bool)
    (sendResult : Option Int) :
    (onSendVerify env st msg editOk sendResult).1.verificationSessions
        = st.verificationSessions ∧
      (onSendVerify env st msg editOk sendResult).1.pendingApprovals
        = st.pendingApprovals := by
  unfold onSendVerify
  by_cases hop : env.ADMIN_ID ≠ some msg.from_id
  · simp [hop]
  · simp only [if_neg hop]
    cases truthyId st.lastVerificationMessage with
    | none => exact postPrompt_workflow _ _ _ _ _
    | some messageId =>
      cases editOk
      · exact postPrompt_workflow _ _ _ _ _
      · exact ⟨rfl, rfl⟩

/-- The text commands touch neither the sessions nor the pending approvals. -/
theorem onText_workflow (env : Env) (st : State) (msg : Message) (out : Outcomes) :
    (onText env st msg out).1.verificationSessions = st.verificationSessions ∧
      (onText env st msg out).1.pendingApprovals = st.pendingApprovals := by
  cases ht : msg.text with
  | none => simp only [onText, ht, and_self]
  | some text =>
    have h1 := onSendVerify_workflow env st msg out.editMessageText out.sendMessage
    by_cases hs : regexSearch "/sendverify".data text.data = true <;>
      cases hc : regexChat text.data <;> simp [onText, ht, hs, hc, onChat, h1]

/-- A message whose text matches no command pattern starts no text listener. -/
theorem onText_noCommand (env : Env) (st : State) (msg : Message) (out : Outcomes)
    (h : matchesCommand msg = false) : onText env st msg out = (st, [[], []]) := by
  cases ht : msg.text with
  | none => simp only [onText, ht]
  | some text =>
    simp only [matchesCommand, ht, Bool.or_eq_false_iff] at h
    have hc : regexChat text.data = none := by
      cases hc : regexChat text.data with
      | none => rfl
      | some m => rw [hc] at h; exact absurd h.2 (by simp)
    simp [onText, ht, h.1, hc]

/-- The message listener without a session changes nothing and sends
nothing. -/
theorem onMessage_noSession (env : Env) (st : State) (msg : Message) (deleteOk : Bool)
    (hs : st.verificationSessions msg.from_id = none) :
    (onMessage env st msg deleteOk).1 = st ∧
      ∀ c t o, Effect.sendMessage c t o ∉ (onMessage env st msg deleteOk).2 := by
  have h2 := handleVerificationAnswer_noSession env st msg hs
  unfold onMessage
  rw [h2]
  cases isRestricted env msg <;> cases deleteOk <;> simp

/-- C7 (counterexample): a participant with an open session posts `hello` in
the restricted topic and the deletion succeeds: the handler returns after the
deletion, no pending approval is recorded and the session stays open.  A
message whose text is white space only leaves the session open as well.  A
message `/chat hi` from a participant without a session is answered by the
`/chat` listener, so the update does send messages; from a participant with
an open session it is forwarded as the answer and answered as well, four
messages in all. -/
theorem C7_counterexample :
    (onMessage sampleEnv openState restrictedMessage true).1.pendingApprovals 7 = none ∧
    (onMessage sampleEnv openState restrictedMessage true).1.verificationSessions 7
      = some ⟨verificationQuestion⟩ ∧
    (onMessage sampleEnv openState restrictedMessage true).2
      = [Effect.deleteMessage (-200) 10] ∧
    isRestricted sampleEnv blankMessage = false ∧
    (onMessage sampleEnv openState blankMessage true).1.pendingApprovals 7 = none ∧
    (onMessage sampleEnv openState blankMessage true).1.verificationSessions 7
      = some ⟨verificationQuestion⟩ ∧
    (onMessage sampleEnv openState blankMessage true).2 = [] ∧
    emptyState.verificationSessions 7 = none ∧
    (processUpdate sampleEnv emptyState (Update.message chatMessage sampleOutcomes)).2 =
      [[], [],
       Effect.sendMessage (some 7) "🤖 Thinking..." noOptions ::
         ((generateVerificationResponse sampleEnv "hi" (Completion.content "ok")).2 ++
           [Effect.sendMessage (some 7) "ok" noOptions])] ∧
    isRestricted sampleEnv chatMessage = false ∧
    (processUpdate sampleEnv openState (Update.message chatMessage sampleOutcomes)).2 =
      [[Effect.sendMessage (some 1)
          (approvalRequestText "Bob" verificationQuestion "/chat hi") (approvalKeyboard 7),
        Effect.sendMessage (some 7) answerForwardedText noOptions],
       [],
       Effect.sendMessage (some 7) "🤖 Thinking..." noOptions ::
         ((generateVerificationResponse sampleEnv "hi" (Completion.content "ok")).2 ++
           [Effect.sendMessage (some 7) "ok" noOptions])] := by
  refine ⟨by decide, by decide, by decide, by decide, by decide, by decide, by decide,
    by decide, rfl, by decide, rfl⟩

/-- C7 (amended): for a participant `u` with an open session, an update whose
message the restriction guard does not select and whose trimmed text is not
empty moves the session to a pending approval: the pending approval holds
the session's question and the trimmed text, the session is removed, the
other sessions and pending approvals are untouched, and the calls of the
message listener are one notification to the operator, with the actions
`approve_u` and `reject_u`, and one confirmation to `u`; these are the only
calls of the update when the text matches no command pattern.  An update
whose message comes from an author without a session changes neither the
sessions nor the pending approvals, its message listener sends nothing, and
when the text matches no command pattern the update changes nothing and
sends nothing. -/
theorem C7_answer_moves_session_to_pending (env : Env) (st : State) (msg : Message)
    (out : Outcomes) (s : Session) (text : String)
    (hs : st.verificationSessions msg.from_id = some s)
    (ht : msg.text = some text) (hne : jsTrim text ≠ "")
    (hr : isRestricted env msg = false) :
    (processUpdate env st (Update.message msg out)).1.pendingApprovals msg.from_id
      = some ⟨s.question, jsTrim text⟩ ∧
    (processUpdate env st (Update.message msg out)).1.verificationSessions msg.from_id
      = none ∧
    (∀ q, q ≠ msg.from_id →
      (processUpdate env st (Update.message msg out)).1.pendingApprovals q
        = st.pendingApprovals q ∧
      (processUpdate env st (Update.message msg out)).1.verificationSessions q
        = st.verificationSessions q) ∧
    (onMessage env st msg out.deleteMessage).2 =
      [Effect.sendMessage env.ADMIN_ID
         (approvalRequestText msg.first_name s.question (jsTrim text))
         ⟨[[⟨"✅ قبول", "approve_" ++ toString msg.from_id⟩],
           [⟨"❌ رفض", "reject_" ++ toString msg.from_id⟩]], none⟩,
       Effect.sendMessage (some msg.from_id) answerForwardedText noOptions] ∧
    (∃ commands, (processUpdate env st (Update.message msg out)).2 =
      (onMessage env st msg out.deleteMessage).2 :: commands) ∧
    (matchesCommand msg = false →
      (processUpdate env st (Update.message msg out)).2 =
        [[Effect.sendMessage env.ADMIN_ID
            (approvalRequestText msg.first_name s.question (jsTrim text))
            ⟨[[⟨"✅ قبول", "approve_" ++ toString msg.from_id⟩],
              [⟨"❌ رفض", "reject_" ++ toString msg.from_id⟩]], none⟩,
          Effect.sendMessage (some msg.from_id) answerForwardedText noOptions],
         [], []]) ∧
    (∀ (st2 : State) (msg2 : Message) (out2 : Outcomes),
      st2.verificationSessions msg2.from_id = none →
        (processUpdate env st2 (Update.message msg2 out2)).1.verificationSessions
          = st2.verificationSessions ∧
        (processUpdate env st2 (Update.message msg2 out2)).1.pendingApprovals
          = st2.pendingApprovals ∧
        (∀ c t o, Effect.sendMessage c t o ∉ (onMessage env st2 msg2 out2.deleteMessage).2) ∧
        (matchesCommand msg2 = false →
          (processUpdate env st2 (Update.message msg2 out2)).1 = st2 ∧
          ∀ calls ∈ (processUpdate env st2 (Update.message msg2 out2)).2,
            ∀ c t o, Effect.sendMessage c t o ∉ calls)) := by
  have hcap := handleVerificationAnswer_capture env st msg s text hs ht hne
  have hom : onMessage env st msg out.deleteMessage = handleVerificationAnswer env st msg := by
    simp [onMessage, hr]
  have hw := onText_workflow env (onMessage env st msg out.deleteMessage).1 msg out
  have hp : (processUpdate env st (Update.message msg out)).1.pendingApprovals
      = (onMessage env st msg out.deleteMessage).1.pendingApprovals := hw.2
  have hv : (processUpdate env st (Update.message msg out)).1.verificationSessions
      = (onMessage env st msg out.deleteMessage).1.verificationSessions := hw.1
  have hcalls : (onMessage env st msg out.deleteMessage).2 =
      [Effect.sendMessage env.ADMIN_ID
         (approvalRequestText msg.first_name s.question (jsTrim text))
         ⟨[[⟨"✅ قبول", "approve_" ++ toString msg.from_id⟩],
           [⟨"❌ رفض", "reject_" ++ toString msg.from_id⟩]], none⟩,
       Effect.sendMessage (some msg.from_id) answerForwardedText noOptions] := by
    rw [hom, hcap]; rfl
  refine ⟨?_, ?_, ?_, hcalls, ⟨_, rfl⟩, ?_, ?_⟩
  · rw [hp, hom, hcap]; simp
  · rw [hv, hom, hcap]; simp
  · intro q hq
    rw [hp, hv, hom, hcap]
    simp [Function.update_noteq hq]
  · intro hno
    have hnt := onText_noCommand env (onMessage env st msg out.deleteMessage).1 msg out hno
    simp only [processUpdate, hnt, hcalls]
  · intro st2 msg2 out2 hnone
    have hm := onMessage_noSession env st2 msg2 out2.deleteMessage hnone
    have hw2 := onText_workflow env (onMessage env st2 msg2 out2.deleteMessage).1 msg2 out2
    refine ⟨?_, ?_, hm.2, ?_⟩
    · exact hw2.1.trans (by rw [hm.1])
    · exact hw2.2.trans (by rw [hm.1])
    · intro hno
      have hnt := onText_noCommand env (onMessage env st2 msg2 out2.deleteMessage).1 msg2
        out2 hno
      simp only [processUpdate, hnt]
      refine ⟨hm.1, ?_⟩
      intro calls hmem c t o
      simp only [List.mem_cons, List.mem_singleton, List.not_mem_nil, or_false] at hmem
      rcases hmem with h | h | h
      · rw [h]; exact hm.2 c t o
      · rw [h]; simp
      · rw [h]; simp

/-- An instance of the C7 theorem on sample data. -/
theorem C7_answer_moves_session_to_pending_witness :
    openState.verificationSessions 7 = some ⟨verificationQuestion⟩ ∧
    jsTrim " hello " ≠ "" ∧
    isRestricted sampleEnv ⟨12, 7, "Bob", 7, some " hello ", none⟩ = false ∧
    (processUpdate sampleEnv openState
      (Update.message ⟨12, 7, "Bob", 7, some " hello ", none⟩ sampleOutcomes)).1.pendingApprovals 7
      = some ⟨verificationQuestion, jsTrim " hello "⟩ :=
  ⟨by decide, by decide, by decide,
    (C7_answer_moves_session_to_pending sampleEnv openState
      ⟨12, 7, "Bob", 7, some " hello ", none⟩ sampleOutcomes ⟨verificationQuestion⟩ " hello "
      (by decide) rfl (by decide) (by decide)).1⟩

/-- An approve payload is not the apply payload. -/
theorem approve_ne_start (s : String) : "approve_" ++ s ≠ "start_verification" := by
  intro h
  have hd := congrArg String.data h
  rw [String.data_append] at hd
  have h1 : "approve_".data = ['a', 'p', 'p', 'r', 'o', 'v', 'e', '_'] := rfl
  have h2 : "start_verification".data = 's' :: "tart_verification".data := rfl
  rw [h1, h2] at hd
  simp at hd

/-- A reject payload is not the apply payload. -/
theorem reject_ne_start (s : String) : "reject_" ++ s ≠ "start_verification" := by
  intro h
  have hd := congrArg String.data h
  rw [String.data_append] at hd
  have h1 : "reject_".data = ['r', 'e', 'j', 'e', 'c', 't', '_'] := rfl
  have h2 : "start_verification".data = 's' :: "tart_verification".data := rfl
  rw [h1, h2] at hd
  simp at hd

/-- The payload `action_p` of a safe integer `p` decodes to the action and
to `p`. -/
theorem callback_decode (env : Env) (action : String) (p : Int) (h : '_' ∉ action.data)
    (hsafe : p.natAbs ≤ 2 ^ 53) :
    callbackAction (action ++ "_" ++ toString p) = action ∧
      callbackUserId env (action ++ "_" ++ toString p) = some p := by
  simp only [callbackAction, callbackUserId, jsSplit_action_id action p h,
    jsNumber_toString _ p hsafe, and_self]

/-- The apply payload decodes to `NaN`: its second piece is `verification`. -/
theorem callbackUserId_start (env : Env) : callbackUserId env "start_verification" = none := by
  rfl

/-- On any other payload the first listener only acknowledges. -/
theorem onStartVerification_other (st : State) (query : CallbackQuery)
    (h : query.data ≠ "start_verification") :
    onStartVerification st query = (st, [Effect.answerCallbackQuery query.id]) := by
  simp [onStartVerification, h]

/-- The second listener on a decoded `approve` with a pending approval. -/
theorem onApproval_approve (env : Env) (st : State) (query : CallbackQuery) (p : Int)
    (a : Approval) (hact : callbackAction query.data = "approve")
    (hid : callbackUserId env query.data = some p) (hp : st.pendingApprovals p = some a) :
    onApproval env st query =
      ({ st with
          verifiedUsers := Function.update st.verifiedUsers p (some true)
          verifiedUsersFile := some (Function.update st.verifiedUsers p (some true))
          pendingApprovals := Function.update st.pendingApprovals p none },
       [Effect.writeFile "verified_users.json",
        Effect.sendMessage (some p) approvedText noOptions,
        Effect.answerCallbackQuery query.id]) := by
  simp [onApproval, hact, hid, hp, saveVerifiedUsers]

/-- The second listener on a decoded `reject` with a pending approval. -/
theorem onApproval_reject (env : Env) (st : State) (query : CallbackQuery) (p : Int)
    (a : Approval) (hact : callbackAction query.data = "reject")
    (hid : callbackUserId env query.data = some p) (hp : st.pendingApprovals p = some a) :
    onApproval env st query =
      ({ st with pendingApprovals := Function.update st.pendingApprovals p none },
       [Effect.sendMessage (some p) rejectedText noOptions,
        Effect.answerCallbackQuery query.id]) := by
  have hne : ¬ ("reject" = "approve") := by decide
  simp [onApproval, hact, hid, hp, hne]

/-- The second listener ignores the apply payload. -/
theorem onApproval_start (env : Env) (st : State) (query : CallbackQuery)
    (h : query.data = "start_verification") : onApproval env st query = (st, []) := by
  simp only [onApproval, h, callbackUserId_start]

/-- Both listeners on the apply payload of a participant who is not verified. -/
theorem onCallbackQuery_start_unverified (env : Env) (st : State) (query : CallbackQuery)
    (h : query.data = "start_verification")
    (hnv : st.verifiedUsers query.from_id ≠ some true) :
    onCallbackQuery env st query =
      ({ st with
          verificationSessions :=
            Function.update st.verificationSessions query.from_id
              (some ⟨verificationQuestion⟩) },
       [Effect.sendMessage (some query.from_id) questionText ⟨[], some "Markdown"⟩,
        Effect.answerCallbackQuery query.id]) := by
  simp only [onCallbackQuery, onStartVerification, h, if_true, if_neg hnv,
    onApproval_start env _ query h, List.append_nil]

/-- Both listeners on the apply payload of a verified participant. -/
theorem onCallbackQuery_start_verified (env : Env) (st : State) (query : CallbackQuery)
    (h : query.data = "start_verification")
    (hv : st.verifiedUsers query.from_id = some true) :
    onCallbackQuery env st query =
      (st, [Effect.sendMessage (some query.from_id) alreadyVerifiedText noOptions]) := by
  simp only [onCallbackQuery, onStartVerification, h, if_true, if_pos hv,
    onApproval_start env _ query h, List.append_nil]

/-- C4: when participant `p` (a safe integer) has a pending approval, a
callback query with payload `approve_p` from any caller leaves `verifiedUsers[p]` true, writes
to `verified_users.json` an object that holds `p` with value true and every
other entry as it was, removes the pending approval of `p` and no other, and
sends `p` the success notice. -/
theorem C4_approve_verifies_and_persists (env : Env) (st : State) (query : CallbackQuery)
    (p : Int) (a : Approval) (hp : st.pendingApprovals p = some a)
    (hsafe : p.natAbs ≤ 2 ^ 53) (hdata : query.data = "approve_" ++ toString p) :
    (onCallbackQuery env st query).1.verifiedUsers p = some true ∧
    (∀ q, st.verifiedUsers q = some true →
      (onCallbackQuery env st query).1.verifiedUsers q = some true) ∧
    (∃ written, (onCallbackQuery env st query).1.verifiedUsersFile = some written ∧
      written p = some true ∧ (∀ q, q ≠ p → written q = st.verifiedUsers q) ∧
      (∀ q, st.verifiedUsers q = some true → written q = some true)) ∧
    (onCallbackQuery env st query).1.pendingApprovals p = none ∧
    (∀ q, q ≠ p → (onCallbackQuery env st query).1.pendingApprovals q = st.pendingApprovals q) ∧
    (onCallbackQuery env st query).2 =
      [Effect.answerCallbackQuery query.id,
       Effect.writeFile "verified_users.json",
       Effect.sendMessage (some p) approvedText noOptions,
       Effect.answerCallbackQuery query.id] := by
  have hdec := callback_decode env "approve" p (by decide) hsafe
  have hdata2 : query.data = "approve" ++ "_" ++ toString p := hdata
  rw [← hdata2] at hdec
  have h1 := onStartVerification_other st query (by rw [hdata]; exact approve_ne_start _)
  have h2 := onApproval_approve env st query p a hdec.1 hdec.2 hp
  have hkeep : ∀ q, st.verifiedUsers q = some true →
      Function.update st.verifiedUsers p (some true) q = some true := by
    intro q hq
    by_cases hqp : q = p
    · subst hqp; simp
    · simpa [Function.update_noteq hqp] using hq
  have heq : onCallbackQuery env st query =
      ({ st with
          verifiedUsers := Function.update st.verifiedUsers p (some true)
          verifiedUsersFile := some (Function.update st.verifiedUsers p (some true))
          pendingApprovals := Function.update st.pendingApprovals p none },
       [Effect.answerCallbackQuery query.id,
        Effect.writeFile "verified_users.json",
        Effect.sendMessage (some p) approvedText noOptions,
        Effect.answerCallbackQuery query.id]) := by
    simp only [onCallbackQuery, h1, h2, List.singleton_append]
  rw [heq]
  refine ⟨by simp, hkeep, ⟨_, rfl, by simp, ?_, hkeep⟩, by simp, ?_, rfl⟩
  · intro q hq
    simp [Function.update_noteq hq]
  · intro q hq
    simp [Function.update_noteq hq]

/-- An instance of the C4 theorem on sample data. -/
theorem C4_approve_verifies_and_persists_witness :
    pendingState.pendingApprovals 5 = some ⟨verificationQuestion, "hello"⟩ ∧
    (5 : Int).natAbs ≤ 2 ^ 53 ∧
    (onCallbackQuery sampleEnv pendingState ⟨"q2", 1, "approve_5"⟩).1.verifiedUsers 5
      = some true :=
  ⟨by decide, by decide,
    (C4_approve_verifies_and_persists sampleEnv pendingState ⟨"q2", 1, "approve_5"⟩ 5
      ⟨verificationQuestion, "hello"⟩ (by decide) (by decide) (by decide)).1⟩

/-- C5: when participant `p` (a safe integer) has a pending approval, a
callback query with payload `reject_p` removes the pending approval of `p` and no other, sends
`p` the rejection notice, writes no file, and leaves `verifiedUsers` and
the persisted document exactly as they were; a participant who was not
verified can then apply again and is given a new session. -/
theorem C5_reject_removes_pending_only (env : Env) (st : State) (query : CallbackQuery)
    (p : Int) (a : Approval) (hp : st.pendingApprovals p = some a)
    (hsafe : p.natAbs ≤ 2 ^ 53) (hdata : query.data = "reject_" ++ toString p) :
    (onCallbackQuery env st query).1.pendingApprovals p = none ∧
    (∀ q, q ≠ p → (onCallbackQuery env st query).1.pendingApprovals q = st.pendingApprovals q) ∧
    (onCallbackQuery env st query).2 =
      [Effect.answerCallbackQuery query.id,
       Effect.sendMessage (some p) rejectedText noOptions,
       Effect.answerCallbackQuery query.id] ∧
    (onCallbackQuery env st query).1.verifiedUsers = st.verifiedUsers ∧
    (onCallbackQuery env st query).1.verifiedUsersFile = st.verifiedUsersFile ∧
    (∀ path, Effect.writeFile path ∉ (onCallbackQuery env st query).2) ∧
    (st.verifiedUsers p ≠ some true → ∀ id,
      (onCallbackQuery env (onCallbackQuery env st query).1
        ⟨id, p, "start_verification"⟩).1.verificationSessions p
          = some ⟨verificationQuestion⟩) := by
  have hdec := callback_decode env "reject" p (by decide) hsafe
  have hdata2 : query.data = "reject" ++ "_" ++ toString p := hdata
  rw [← hdata2] at hdec
  have h1 := onStartVerification_other st query (by rw [hdata]; exact reject_ne_start _)
  have h2 := onApproval_reject env st query p a hdec.1 hdec.2 hp
  have heq : onCallbackQuery env st query =
      ({ st with pendingApprovals := Function.update st.pendingApprovals p none },
       [Effect.answerCallbackQuery query.id,
        Effect.sendMessage (some p) rejectedText noOptions,
        Effect.answerCallbackQuery query.id]) := by
    simp only [onCallbackQuery, h1, h2, List.singleton_append]
  rw [heq]
  refine ⟨by simp, ?_, rfl, rfl, rfl, by simp, ?_⟩
  · intro q hq
    simp [Function.update_noteq hq]
  · intro hnv id
    have h := onCallbackQuery_start_unverified env
      { st with pendingApprovals := Function.update st.pendingApprovals p none }
      ⟨id, p, "start_verification"⟩ rfl hnv
    simp [h]

/-- An instance of the C5 theorem on sample data. -/
theorem C5_reject_removes_pending_only_witness :
    pendingState.pendingApprovals 5 = some ⟨verificationQuestion, "hello"⟩ ∧
    (5 : Int).natAbs ≤ 2 ^ 53 ∧
    (onCallbackQuery sampleEnv pendingState ⟨"q3", 1, "reject_5"⟩).1.pendingApprovals 5
      = none :=
  ⟨by decide, by decide,
    (C5_reject_removes_pending_only sampleEnv pendingState ⟨"q3", 1, "reject_5"⟩ 5
      ⟨verificationQuestion, "hello"⟩ (by decide) (by decide) (by decide)).1⟩

/-- C6: on a callback query with payload `start_verification` from `u`: if
`u` is not verified, afterwards `verificationSessions[u]` holds the fixed
question, the other sessions are untouched, and the only message sent is the
question, to `u`; if `u` is verified, the only call is the already-verified
notice to `u` and `verificationSessions` is unchanged.  In both cases
`pendingApprovals`, `verifiedUsers` and the persisted document are
unchanged. -/
theorem C6_apply_opens_one_session (env : Env) (st : State) (query : CallbackQuery)
    (hdata : query.data = "start_verification") :
    (st.verifiedUsers query.from_id ≠ some true →
      (onCallbackQuery env st query).1.verificationSessions query.from_id
        = some ⟨verificationQuestion⟩ ∧
      (∀ q, q ≠ query.from_id →
        (onCallbackQuery env st query).1.verificationSessions q = st.verificationSessions q) ∧
      (onCallbackQuery env st query).2 =
        [Effect.sendMessage (some query.from_id) questionText ⟨[], some "Markdown"⟩,
         Effect.answerCallbackQuery query.id]) ∧
    (st.verifiedUsers query.from_id = some true →
      (onCallbackQuery env st query).1.verificationSessions = st.verificationSessions ∧
      (onCallbackQuery env st query).2 =
        [Effect.sendMessage (some query.from_id) alreadyVerifiedText noOptions]) ∧
    (onCallbackQuery env st query).1.pendingApprovals = st.pendingApprovals ∧
    (onCallbackQuery env st query).1.verifiedUsers = st.verifiedUsers ∧
    (onCallbackQuery env st query).1.verifiedUsersFile = st.verifiedUsersFile := by
  by_cases hv : st.verifiedUsers query.from_id = some true
  · rw [onCallbackQuery_start_verified env st query hdata hv]
    exact ⟨fun h => absurd hv h, fun _ => ⟨rfl, rfl⟩, rfl, rfl, rfl⟩
  · rw [onCallbackQuery_start_unverified env st query hdata hv]
    refine ⟨fun _ => ⟨by simp, ?_, rfl⟩, fun h => absurd h hv, rfl, rfl, rfl⟩
    intro q hq
    simp [Function.update_noteq hq]

/-- An instance of the C6 theorem on sample data. -/
theorem C6_apply_opens_one_session_witness :
    (⟨"q4", 7, "start_verification"⟩ : CallbackQuery).data = "start_verification" ∧
    emptyState.verifiedUsers 7 ≠ some true ∧
    (onCallbackQuery sampleEnv emptyState ⟨"q4", 7, "start_verification"⟩).1.verificationSessions 7
      = some ⟨verificationQuestion⟩ :=
  ⟨rfl, by decide,
    ((C6_apply_opens_one_session sampleEnv emptyState ⟨"q4", 7, "start_verification"⟩ rfl).1
      (by decide)).1⟩

/-- C8: for a `/sendverify` invocation by the operator.  With no identifier
stored, the prompt is posted to the public channel and, once the gateway
returns the new message, its identifier is the stored and the persisted one.
With a (nonzero) identifier stored and a successful edit of that message,
the calls are the edit and the private confirmation, no prompt is posted, and
the state, stored and persisted identifier included, is unchanged.  With an
identifier stored and a failed edit, the prompt is posted and the returned
identifier replaces the stored and the persisted one. -/
theorem C8_sendverify_edits_or_reposts (env : Env) (st : State) (msg : Message)
    (editOk : Bool) (sendResult : Option Int) (hop : env.ADMIN_ID = some msg.from_id) :
    (st.lastVerificationMessage = none →
      (∀ newId, sendResult = some newId →
        (onSendVerify env st msg editOk sendResult).2 =
          [Effect.sendMessage env.PUBLIC_CHANNEL_ID verificationText verificationKeyboard,
           Effect.writeFile messageDataFile,
           Effect.sendMessage (some msg.from_id) "✅ تم إرسال رسالة التحقق بنجاح!" noOptions] ∧
        (onSendVerify env st msg editOk sendResult).1.lastVerificationMessage = some newId ∧
        (onSendVerify env st msg editOk sendResult).1.lastVerificationMessageFile
          = some (some newId)) ∧
      Effect.sendMessage env.PUBLIC_CHANNEL_ID verificationText verificationKeyboard
        ∈ (onSendVerify env st msg editOk sendResult).2) ∧
    (∀ stored, st.lastVerificationMessage = some stored → stored ≠ 0 → editOk = true →
      (onSendVerify env st msg editOk sendResult).2 =
        [Effect.editMessageText verificationText env.PUBLIC_CHANNEL_ID stored
           verificationKeyboard.inline_keyboard,
         Effect.sendMessage (some msg.from_id) "✅ تم تحديث رسالة التحقق بنجاح!" noOptions] ∧
      Effect.sendMessage env.PUBLIC_CHANNEL_ID verificationText verificationKeyboard
        ∉ (onSendVerify env st msg editOk sendResult).2 ∧
      (onSendVerify env st msg editOk sendResult).1 = st) ∧
    (∀ stored, st.lastVerificationMessage = some stored → stored ≠ 0 → editOk = false →
      (∀ newId, sendResult = some newId →
        (onSendVerify env st msg editOk sendResult).2 =
          [Effect.editMessageText verificationText env.PUBLIC_CHANNEL_ID stored
             verificationKeyboard.inline_keyboard,
           Effect.log "⚠️ Previous verification message not found. Sending a new one...",
           Effect.sendMessage env.PUBLIC_CHANNEL_ID verificationText verificationKeyboard,
           Effect.writeFile messageDataFile,
           Effect.sendMessage (some msg.from_id) "✅ تم إرسال رسالة التحقق بنجاح!" noOptions] ∧
        (onSendVerify env st msg editOk sendResult).1.lastVerificationMessage = some newId ∧
        (onSendVerify env st msg editOk sendResult).1.lastVerificationMessageFile
          = some (some newId)) ∧
      Effect.sendMessage env.PUBLIC_CHANNEL_ID verificationText verificationKeyboard
        ∈ (onSendVerify env st msg editOk sendResult).2) := by
  refine ⟨?_, ?_, ?_⟩
  · intro hnone
    refine ⟨?_, ?_⟩
    · intro newId hsend
      simp [onSendVerify, hop, hnone, truthyId, postPrompt, hsend, saveLastVerificationMessage]
    · cases sendResult <;>
        simp [onSendVerify, hop, hnone, truthyId, postPrompt, saveLastVerificationMessage]
  · intro stored hst hnz hedit
    have htext : verificationText ≠ "✅ تم تحديث رسالة التحقق بنجاح!" := by decide
    simp [onSendVerify, hop, hst, truthyId, hnz, hedit, htext]
  · intro stored hst hnz hedit
    refine ⟨?_, ?_⟩
    · intro newId hsend
      simp [onSendVerify, hop, hst, truthyId, hnz, hedit, postPrompt, hsend,
        saveLastVerificationMessage]
    · cases sendResult <;>
        simp [onSendVerify, hop, hst, truthyId, hnz, hedit, postPrompt,
          saveLastVerificationMessage]

/-- An instance of the C8 theorem on sample data. -/
theorem C8_sendverify_edits_or_reposts_witness :
    sampleEnv.ADMIN_ID = some operatorCommand.from_id ∧
    storedState.lastVerificationMessage = some 40 ∧
    (onSendVerify sampleEnv storedState operatorCommand true (some 41)).1 = storedState :=
  ⟨rfl, rfl,
    ((C8_sendverify_edits_or_reposts sampleEnv storedState operatorCommand true (some 41)
      rfl).2.1 40 rfl (by decide) rfl).2.2⟩

/-- C9 (the code at the failing input): participant 5 has a pending approval
and a callback query arrives with payload `foo_5`, whose action is neither
`approve` nor `reject`.  The second listener skips both branches and still
deletes the pending approval: the entry is gone, nobody is verified and no
notice is sent. -/
theorem C9_unknown_action_consumes_pending :
    pendingState.pendingApprovals 5 = some ⟨verificationQuestion, "hello"⟩ ∧
    callbackAction "foo_5" = "foo" ∧
    callbackUserId sampleEnv "foo_5" = some 5 ∧
    (onCallbackQuery sampleEnv pendingState ⟨"q5", 1, "foo_5"⟩).1.pendingApprovals 5 = none ∧
    (onCallbackQuery sampleEnv pendingState ⟨"q5", 1, "foo_5"⟩).1.verifiedUsers 5 = none ∧
    (onCallbackQuery sampleEnv pendingState ⟨"q5", 1, "foo_5"⟩).2 =
      [Effect.answerCallbackQuery "q5", Effect.answerCallbackQuery "q5"] := by
  refine ⟨by decide, by decide, by decide, by decide, by decide, by decide⟩

/-- The answer block does not touch `verifiedUsers`. -/
theorem handleVerificationAnswer_verifiedUsers (env : Env) (st : State) (msg : Message) :
    (handleVerificationAnswer env st msg).1.verifiedUsers = st.verifiedUsers := by
  cases hs : st.verificationSessions msg.from_id <;> cases ht : msg.text <;>
    simp only [handleVerificationAnswer, hs, ht, Option.map]
  split <;> rfl

/-- The message listener does not touch `verifiedUsers`. -/
theorem onMessage_verifiedUsers (env : Env) (st : State) (msg : Message) (deleteOk : Bool) :
    (onMessage env st msg deleteOk).1.verifiedUsers = st.verifiedUsers := by
  have h := handleVerificationAnswer_verifiedUsers env st msg
  unfold onMessage
  cases isRestricted env msg <;> cases deleteOk <;> simp [h]

/-- Posting the prompt does not touch `verifiedUsers`. -/
theorem postPrompt_verifiedUsers (env : Env) (st : State) (userId : Int)
    (sendResult : Option Int) (pre : List Effect) :
    (postPrompt env st userId sendResult pre).1.verifiedUsers = st.verifiedUsers := by
  cases sendResult <;> rfl

/-- The `/sendverify` listener does not touch `verifiedUsers`. -/
theorem onSendVerify_verifiedUsers (env : Env) (st : State) (msg : Message) (editOk : Bool)
    (sendResult : Option Int) :
    (onSendVerify env st msg editOk sendResult).1.verifiedUsers = st.verifiedUsers := by
  unfold onSendVerify
  by_cases hop : env.ADMIN_ID ≠ some msg.from_id
  · simp [hop]
  · simp only [if_neg hop]
    cases truthyId st.lastVerificationMessage with
    | none => exact postPrompt_verifiedUsers _ _ _ _ _
    | some messageId =>
      cases editOk
      · exact postPrompt_verifiedUsers _ _ _ _ _
      · rfl

/-- The text commands do not touch `verifiedUsers`. -/
theorem onText_verifiedUsers (env : Env) (st : State) (msg : Message) (out : Outcomes) :
    (onText env st msg out).1.verifiedUsers = st.verifiedUsers := by
  cases ht : msg.text with
  | none => simp only [onText, ht]
  | some text =>
    have h1 := onSendVerify_verifiedUsers env st msg out.editMessageText out.sendMessage
    by_cases hs : regexSearch "/sendverify".data text.data = true <;>
      cases hc : regexChat text.data <;> simp [onText, ht, hs, hc, onChat, h1]

/-- The first callback listener touches neither `verifiedUsers` nor
`pendingApprovals`. -/
theorem onStartVerification_frame (st : State) (query : CallbackQuery) :
    (onStartVerification st query).1.verifiedUsers = st.verifiedUsers ∧
      (onStartVerification st query).1.pendingApprovals = st.pendingApprovals := by
  unfold onStartVerification
  by_cases hd : query.data = "start_verification"
  · by_cases hv : st.verifiedUsers query.from_id = some true <;> simp [hd, hv]
  · simp [hd]

/-- The second callback listener keeps every verified participant, and changes
an entry of `verifiedUsers` only on a decoded `approve` for a participant
with a pending approval. -/
theorem onApproval_verifiedUsers (env : Env) (st : State) (query : CallbackQuery) (q : Int) :
    (st.verifiedUsers q = some true → (onApproval env st query).1.verifiedUsers q = some true) ∧
    ((onApproval env st query).1.verifiedUsers q ≠ st.verifiedUsers q →
      callbackAction query.data = "approve" ∧ callbackUserId env query.data = some q ∧
        st.pendingApprovals q ≠ none ∧ (onApproval env st query).1.verifiedUsers q = some true) := by
  cases hid : callbackUserId env query.data with
  | none => simp [onApproval, hid]
  | some userId =>
    cases hp : st.pendingApprovals userId with
    | none => simp [onApproval, hid, hp]
    | some a =>
      by_cases hact : callbackAction query.data = "approve"
      · by_cases hq : q = userId
        · subst hq
          simp [onApproval, hid, hact, saveVerifiedUsers, hp]
        · simp [onApproval, hid, hp, hact, saveVerifiedUsers, Function.update_noteq hq]
      · by_cases hrej : callbackAction query.data = "reject" <;>
          simp [onApproval, hid, hp, hact, hrej]

/-- C10: for every state and every inbound update (a message, with or
without the `/sendverify` and `/chat` commands, or a callback query with any
payload), every participant verified before is verified after, and an entry
of `verifiedUsers` that differs afterwards belongs to the participant `p`
decoded from a callback payload whose action is `approve`, who had a pending
approval before the update and is verified after it. -/
theorem C10_verified_set_grows_only_by_approval (env : Env) (st : State) (upd : Update) :
    (∀ q, st.verifiedUsers q = some true →
      (processUpdate env st upd).1.verifiedUsers q = some true) ∧
    (∀ p, (processUpdate env st upd).1.verifiedUsers p ≠ st.verifiedUsers p →
      ∃ query, upd = Update.callback_query query ∧
        callbackAction query.data = "approve" ∧
        callbackUserId env query.data = some p ∧
        st.pendingApprovals p ≠ none ∧
        (processUpdate env st upd).1.verifiedUsers p = some true) := by
  cases upd with
  | message msg out =>
    have h : (processUpdate env st (Update.message msg out)).1.verifiedUsers
        = st.verifiedUsers := by
      simp only [processUpdate]
      rw [onText_verifiedUsers, onMessage_verifiedUsers]
    rw [h]
    exact ⟨fun q hq => hq, fun p hp => absurd rfl hp⟩
  | callback_query query =>
    have hf := onStartVerification_frame st query
    simp only [processUpdate, onCallbackQuery]
    refine ⟨?_, ?_⟩
    · intro q hq
      exact (onApproval_verifiedUsers env _ query q).1 (by rw [hf.1]; exact hq)
    · intro p hp
      have h := (onApproval_verifiedUsers env (onStartVerification st query).1 query p).2
        (by rw [hf.1]; exact hp)
      rw [hf.2] at h
      exact ⟨query, rfl, h⟩

/-- An instance of the C10 theorem on sample data. -/
theorem C10_verified_set_grows_only_by_approval_witness :
    verifiedState.verifiedUsers 7 = some true ∧
    (processUpdate sampleEnv verifiedState
      (Update.callback_query ⟨"q6", 7, "start_verification"⟩)).1.verifiedUsers 7 = some true :=
  ⟨by decide,
    (C10_verified_set_grows_only_by_approval sampleEnv verifiedState
      (Update.callback_query ⟨"q6", 7, "start_verification"⟩)).1 7 (by decide)⟩

end TelegramBot
